import Mathlib

/-!
Verification of the options-calculator pricing and analytics engine
(`src/utils/blackScholes.js`) against its natural-language specification.

The JavaScript source is shallowly embedded: JS numbers appearing in purely
algebraic code paths (strategy P&L at expiration, strategy metrics, grids)
are modelled as exact rationals; code paths that invoke transcendental
functions (`Math.exp`, `Math.log`, `Math.sqrt`) are modelled over the real
numbers.  `toFixed(2)`/`parseFloat` rounding and `Math.round` are modelled
exactly.  The wall-clock read `new Date()` inside `calculateStrategyPnL` and
`calculateStrategyGreeks` is modelled as an explicit `now` parameter
(milliseconds since epoch, like a JS `Date` value).
-/

/-- Option type tag, mirroring the `'call' | 'put'` strings of the source. -/
inductive OptionType where
  | call
  | put
deriving DecidableEq, Repr

/-- Leg action tag, mirroring the buy/sell strings of the source. -/
inductive LegAction where
  | buy
  | sell
deriving DecidableEq, Repr

/-- JS `Math.round` (round half toward positive infinity). -/
def jsRound (x : ℚ) : ℤ := ⌊x + 1/2⌋

/-- JS `parseFloat(x.toFixed(2))`: round to a multiple of 1/100,
ties away from zero (the behavior of `toFixed` on exactly-representable
inputs). -/
def jsToFixed2 (x : ℚ) : ℚ :=
  if 0 ≤ x then ((⌊x * 100 + 1/2⌋ : ℤ) : ℚ) / 100
  else -(((⌊(-x) * 100 + 1/2⌋ : ℤ) : ℚ) / 100)

/-- `daysBetween(date1, date2)` from the source:
`Math.round(Math.abs((date2 - date1) / oneDay))` with `oneDay` = 86400000 ms.
Note the absolute value: the result is never negative, even when `date2`
is before `date1`. -/
def daysBetween (date1 date2 : ℚ) : ℤ :=
  jsRound (|date2 - date1| / 86400000)

/-- The inner `y` expression of the source `normalCDF` (Abramowitz–Stegun
style polynomial), as a function of the already-rescaled argument
`x2 = |x| / sqrt 2`.  The five coefficients and `p = 0.3275911` are the
exact decimal literals of the source. -/
noncomputable def normalY (x2 : ℝ) : ℝ :=
  let t : ℝ := 1 / (1 + 0.3275911 * x2)
  1 - ((((1.061405429 * t + (-1.453152027)) * t + 1.421413741) * t
        + (-0.284496736)) * t + 0.254829592) * t * Real.exp (-x2 * x2)

/-- `normalCDF(x)` from the source: `0.5 * (1 + sign * y)` where
`sign = x < 0 ? -1 : 1` and `y` is `normalY` of `|x| / sqrt 2`. -/
noncomputable def normalCDF (x : ℝ) : ℝ :=
  0.5 * (1 + (if x < 0 then (-1 : ℝ) else 1) * normalY (|x| / Real.sqrt 2))

/-- `normalPDF(x)` from the source. -/
noncomputable def normalPDF (x : ℝ) : ℝ :=
  Real.exp (-0.5 * x * x) / Real.sqrt (2 * Real.pi)

/-- `calculateD1D2(S, K, T, r, sigma)` from the source: returns `(0, 0)` when
`T ≤ 0` or `sigma ≤ 0`, else the Black-Scholes `d1`, `d2`. -/
noncomputable def calculateD1D2 (S K T r sigma : ℝ) : ℝ × ℝ :=
  if T ≤ 0 ∨ sigma ≤ 0 then (0, 0)
  else
    let d1 := (Real.log (S / K) + (r + 0.5 * sigma * sigma) * T)
                / (sigma * Real.sqrt T)
    (d1, d1 - sigma * Real.sqrt T)

/-- Intrinsic value of an option (`Math.max(0, S - K)` for a call,
`Math.max(0, K - S)` for a put), used by several branches of the source. -/
def intrinsicValue (optionType : OptionType) (S K : ℝ) : ℝ :=
  match optionType with
  | .call => max 0 (S - K)
  | .put => max 0 (K - S)

/-- `calculateOptionPrice(S, K, T, r, sigma, optionType)` from the source.
Note that only `T ≤ 0` selects the intrinsic-value branch; when `T > 0` and
`sigma ≤ 0` the Black-Scholes expression is evaluated with `d1 = d2 = 0`. -/
noncomputable def calculateOptionPrice (S K T r sigma : ℝ)
    (optionType : OptionType) : ℝ :=
  if T ≤ 0 then intrinsicValue optionType S K
  else
    let d := calculateD1D2 S K T r sigma
    match optionType with
    | .call => S * normalCDF d.1 - K * Real.exp (-r * T) * normalCDF d.2
    | .put => K * Real.exp (-r * T) * normalCDF (-d.2) - S * normalCDF (-d.1)

/-- The record returned by `calculateGreeks`. -/
structure Greeks where
  delta : ℝ
  gamma : ℝ
  theta : ℝ
  vega : ℝ
  rho : ℝ
  price : ℝ

/-- `calculateGreeks(S, K, T, r, sigma, optionType)` from the source. -/
noncomputable def calculateGreeks (S K T r sigma : ℝ)
    (optionType : OptionType) : Greeks :=
  if T ≤ 0 ∨ sigma ≤ 0 then
    { delta := match optionType with
        | .call => if K < S then 1 else 0
        | .put => if S < K then -1 else 0
      gamma := 0, theta := 0, vega := 0, rho := 0
      price := intrinsicValue optionType S K }
  else
    let d := calculateD1D2 S K T r sigma
    let sqrtT := Real.sqrt T
    let expRT := Real.exp (-r * T)
    let nd2 := normalCDF d.2
    let npd1 := normalPDF d.1
    let price := calculateOptionPrice S K T r sigma optionType
    let delta := match optionType with
      | .call => normalCDF d.1
      | .put => normalCDF d.1 - 1
    let theta := match optionType with
      | .call => (-S * npd1 * sigma / (2 * sqrtT)) - r * K * expRT * nd2
      | .put => (-S * npd1 * sigma / (2 * sqrtT)) + r * K * expRT * normalCDF (-d.2)
    let rho := match optionType with
      | .call => K * T * expRT * nd2
      | .put => -K * T * expRT * normalCDF (-d.2)
    { delta := delta
      gamma := npd1 / (S * sigma * sqrtT)
      theta := theta / 365
      vega := S * sqrtT * npd1 / 100
      rho := rho / 100
      price := price }

-- Helper lemmas about the normal CDF approximation --

/-- The source polynomial coefficients sum to 0.999999999, not 1; hence
`normalY 0 = 1e-9` exactly. -/
theorem normalY_zero : normalY 0 = 1 / 1000000000 := by
  simp only [normalY]
  norm_num [Real.exp_zero]

/-- `normalCDF 0` is exactly `0.5000000005`, not `0.5`. -/
theorem normalCDF_zero : normalCDF 0 = 1/2 + 1/2000000000 := by
  simp only [normalCDF, abs_zero, zero_div, normalY_zero]
  norm_num

/-- For nonzero arguments, the source approximation is exactly symmetric:
`normalCDF x + normalCDF (-x) = 1`. -/
theorem normalCDF_add_neg {x : ℝ} (hx : x ≠ 0) :
    normalCDF x + normalCDF (-x) = 1 := by
  rcases hx.lt_or_lt with h | h
  · have h1 : ¬ (-x < 0) := by linarith
    simp only [normalCDF, abs_neg, if_pos h, if_neg h1]
    ring
  · have h1 : ¬ (x < 0) := by linarith
    have h2 : -x < 0 := by linarith
    simp only [normalCDF, abs_neg, if_neg h1, if_pos h2]
    ring

-- Multi-leg strategy engine --

/-- A strategy leg, mirroring the source object
`{ optionType, action, strike, premium, qty, expiration, iv }`.
`qty` and `iv` are `Option`-valued: `none` models a leg constructed without
the field (JS `undefined`), which destructuring defaults replace by `1`
and `0.3` respectively.  `expiration` is a date in milliseconds since epoch
(a JS `Date` value). -/
structure Leg where
  optionType : OptionType
  action : LegAction
  strike : ℚ
  premium : ℚ
  qty : Option ℚ
  expiration : ℚ
  iv : Option ℚ
deriving DecidableEq, Repr

/-- The destructuring default `qty = 1` of the source. -/
def Leg.qtyD (l : Leg) : ℚ := l.qty.getD 1

/-- The destructuring default `iv = 0.3` of the source. -/
def Leg.ivD (l : Leg) : ℚ := l.iv.getD 0.3

/-- The multiplier `action === 'buy' ? 1 : -1` of the source. -/
def LegAction.sign : LegAction → ℚ
  | .buy => 1
  | .sell => -1

/-- Intrinsic value of a leg at a stock price, over the rationals
(the `Math.max(0, ...)` expressions of the at-expiration branch). -/
def legIntrinsic (optionType : OptionType) (stockPrice strike : ℚ) : ℚ :=
  match optionType with
  | .call => max 0 (stockPrice - strike)
  | .put => max 0 (strike - stockPrice)

/-- One leg contribution of `calculateStrategyPnL` in the
`atExpiration = true` branch: `multiplier * (intrinsic - premium) * 100 * qty`.
This branch is purely rational arithmetic. -/
def legPnLExp (stockPrice : ℚ) (l : Leg) : ℚ :=
  l.action.sign * (legIntrinsic l.optionType stockPrice l.strike - l.premium)
    * 100 * l.qtyD

/-- At-expiration strategy P&L: the sum of `legPnLExp` over the legs
(the `totalPnL` accumulation of the source restricted to the
`atExpiration = true` branch). -/
def strategyPnLExp (legs : List Leg) (stockPrice : ℚ) : ℚ :=
  (legs.map (legPnLExp stockPrice)).sum

/-- One leg contribution of `calculateStrategyPnL` in the
`atExpiration = false` branch: the remaining days are
`daysBetween(new Date(), new Date(expiration)) - daysFromNow`, the time is
clamped at 0, and the leg value is intrinsic when `T ≤ 0`, else the
Black-Scholes price with the leg IV.  `now` models `new Date()`. -/
noncomputable def legPnLPre (stockPrice d r now : ℚ) (l : Leg) : ℝ :=
  let daysToExpiry : ℚ := (daysBetween now l.expiration : ℚ) - d
  let T : ℚ := max 0 (daysToExpiry / 365)
  let optionValue : ℝ :=
    if T ≤ 0 then (legIntrinsic l.optionType stockPrice l.strike : ℝ)
    else calculateOptionPrice (stockPrice : ℝ) (l.strike : ℝ) (T : ℝ) (r : ℝ)
           (l.ivD : ℝ) l.optionType
  (l.action.sign : ℝ) * (optionValue - (l.premium : ℝ)) * 100 * (l.qtyD : ℝ)

/-- `calculateStrategyPnL(legs, stockPrice, atExpiration, daysFromNow, r)`
from the source, with the wall-clock read made explicit as `now`. -/
noncomputable def calculateStrategyPnL (legs : List Leg) (stockPrice : ℚ)
    (atExpiration : Bool) (daysFromNow r now : ℚ) : ℝ :=
  (legs.map (fun l =>
    if atExpiration then ((legPnLExp stockPrice l : ℚ) : ℝ)
    else legPnLPre stockPrice daysFromNow r now l)).sum

/-- The 5-field accumulator of `calculateStrategyGreeks`. -/
structure CombinedGreeks where
  delta : ℝ
  gamma : ℝ
  theta : ℝ
  vega : ℝ
  rho : ℝ

/-- The loop body of `calculateStrategyGreeks`: price the leg Greeks with
`T = max(0.001, daysToExpiry / 365)` and accumulate each field scaled by
`multiplier * qty`. -/
noncomputable def greeksStep (stockPrice r now : ℚ) (acc : CombinedGreeks)
    (l : Leg) : CombinedGreeks :=
  let daysToExpiry : ℚ := (daysBetween now l.expiration : ℚ)
  let T : ℚ := max 0.001 (daysToExpiry / 365)
  let g := calculateGreeks (stockPrice : ℝ) (l.strike : ℝ) (T : ℝ) (r : ℝ)
             (l.ivD : ℝ) l.optionType
  let m : ℝ := (l.action.sign : ℝ) * (l.qtyD : ℝ)
  { delta := acc.delta + g.delta * m
    gamma := acc.gamma + g.gamma * m
    theta := acc.theta + g.theta * m
    vega := acc.vega + g.vega * m
    rho := acc.rho + g.rho * m }

/-- `calculateStrategyGreeks(legs, stockPrice, r)` from the source, with the
wall-clock read made explicit as `now`. -/
noncomputable def calculateStrategyGreeks (legs : List Leg) (stockPrice r now : ℚ) :
    CombinedGreeks :=
  legs.foldl (greeksStep stockPrice r now) ⟨0, 0, 0, 0, 0⟩

-- Strategy metrics --

/-- A JS number that may be `Infinity` or `-Infinity` (as produced by the
metrics computation), with finite values exact rationals. -/
inductive XReal where
  | negInf
  | fin (q : ℚ)
  | posInf
deriving DecidableEq, Repr

/-- JS comparison `q > m` where `m` may be `±Infinity`. -/
def XReal.ltq (m : XReal) (q : ℚ) : Bool :=
  match m with
  | .negInf => true
  | .fin v => decide (v < q)
  | .posInf => false

/-- JS comparison `q < m` where `m` may be `±Infinity`. -/
def XReal.gtq (m : XReal) (q : ℚ) : Bool :=
  match m with
  | .negInf => false
  | .fin v => decide (q < v)
  | .posInf => true

/-- JS multiplication `m * 1.5` where `m` may be `±Infinity`. -/
def XReal.mul15 : XReal → XReal
  | .negInf => .negInf
  | .fin v => .fin (v * (3/2))
  | .posInf => .posInf

/-- The ascending price scan
`for (let price = minPrice; price <= maxPrice; price += step)` of the source,
in exact arithmetic: the visited prices are `minPrice + k * step` for
`k = 0, ..., ⌊(maxPrice - minPrice) / step⌋`.  (When `step ≤ 0` and
`minPrice ≤ maxPrice` the source loop does not terminate; that case is
unreachable in the calls modelled here and is mapped to `[]`.) -/
def ascGrid (minPrice maxPrice step : ℚ) : List ℚ :=
  if minPrice ≤ maxPrice then
    if 0 < step then
      (List.range (((maxPrice - minPrice) / step).floor.toNat + 1)).map
        (fun (k : ℕ) => minPrice + (k : ℚ) * step)
    else []
  else []

/-- The scan state of `calculateStrategyMetrics`. -/
structure MScan where
  maxProfit : XReal
  maxLoss : XReal
  maxProfitPrice : ℚ
  maxLossPrice : ℚ
  breakevens : List ℚ
  prevPnL : Option ℚ
deriving DecidableEq, Repr

/-- One iteration of the metrics price scan: update the running maximum and
minimum of the at-expiration P&L, record a breakeven at every sign crossing
(strict negative to nonnegative, or nonnegative to strict negative), and
remember the current P&L.  The scanned P&L function is passed in, mirroring
the closure over `legs` in the source. -/
def metricsStep (pnlAt : ℚ → ℚ) (st : MScan) (price : ℚ) : MScan :=
  let pnl := pnlAt price
  let st1 := if st.maxProfit.ltq pnl then
      { st with maxProfit := .fin pnl, maxProfitPrice := price } else st
  let st2 := if st1.maxLoss.gtq pnl then
      { st1 with maxLoss := .fin pnl, maxLossPrice := price } else st1
  let st3 := match st.prevPnL with
    | none => st2
    | some prev =>
        if (prev < 0 ∧ 0 ≤ pnl) ∨ (0 ≤ prev ∧ pnl < 0) then
          { st2 with breakevens := st2.breakevens ++ [jsToFixed2 price] }
        else st2
  { st3 with prevPnL := some pnl }

/-- `netPremium` from `calculateStrategyMetrics`:
`Σ (action === 'buy' ? -1 : 1) * premium * 100 * (qty || 1)`.
Note the JS `||`: an explicit quantity of `0` is also replaced by `1` here. -/
def netPremiumOf (legs : List Leg) : ℚ :=
  legs.foldl (fun s l =>
    s + (if l.action = .buy then (-1 : ℚ) else 1) * l.premium * 100 *
      (match l.qty with
       | none => 1
       | some q => if q = 0 then 1 else q)) 0

/-- The record returned by `calculateStrategyMetrics`. -/
structure StrategyMetrics where
  maxProfit : XReal
  maxLoss : XReal
  maxProfitPrice : ℚ
  maxLossPrice : ℚ
  breakevens : List ℚ
  netPremium : ℚ
  isDebit : Bool
  isCredit : Bool
deriving DecidableEq, Repr

/-- `calculateStrategyMetrics(legs, currentPrice, range)` from the source:
scan `[max(0.01, cp*(1-range)), cp*(1+range)]` in $0.50 steps over the
at-expiration P&L, then apply the unbounded-risk heuristic at `3*cp` and
`0.1*cp` against `1.5 *` the scanned extremes. -/
def calculateStrategyMetrics (legs : List Leg) (currentPrice range : ℚ) :
    StrategyMetrics :=
  let minPrice := max (1/100) (currentPrice * (1 - range))
  let maxPrice := currentPrice * (1 + range)
  let pnlAt := strategyPnLExp legs
  let final := (ascGrid minPrice maxPrice (1/2)).foldl (metricsStep pnlAt)
    ⟨.negInf, .posInf, currentPrice, currentPrice, [], none⟩
  let farOTMCall := pnlAt (currentPrice * 3)
  let farOTMPut := pnlAt (currentPrice * (1/10))
  let hasUnlimitedUpside := final.maxProfit.mul15.ltq farOTMCall
  let hasUnlimitedDownside := final.maxLoss.mul15.gtq farOTMPut
  let np := netPremiumOf legs
  { maxProfit := if hasUnlimitedUpside then .posInf else final.maxProfit
    maxLoss := if hasUnlimitedDownside then .negInf else final.maxLoss
    maxProfitPrice := final.maxProfitPrice
    maxLossPrice := final.maxLossPrice
    breakevens := final.breakevens
    netPremium := np
    isDebit := decide (np < 0)
    isCredit := decide (0 < np) }

-- Heatmap generator --

/-- The descending price scan
`for (let p = maxPrice; p >= minPrice; p -= priceStep)` of
`generateHeatmapData`, in exact arithmetic: the visited prices are
`maxPrice - k * step` for `k = 0, ..., ⌊(maxPrice - minPrice) / step⌋`.
(When `step ≤ 0` and `minPrice ≤ maxPrice` the source loop does not
terminate; that case is unreachable in the claims settled here and is
mapped to `[]`.) -/
def descGrid (maxPrice minPrice step : ℚ) : List ℚ :=
  if minPrice ≤ maxPrice then
    if 0 < step then
      (List.range (((maxPrice - minPrice) / step).floor.toNat + 1)).map
        (fun (k : ℕ) => maxPrice - (k : ℚ) * step)
    else []
  else []

/-- The rounded price points of `generateHeatmapData`:
`minPrice = max(1, cp * 0.75)`, `maxPrice = cp * 1.25`,
`priceStep = (maxPrice - minPrice) / 15`, each visited price pushed as
`parseFloat(p.toFixed(2))`. -/
def heatPricePoints (currentPrice : ℚ) : List ℚ :=
  let minPrice := max 1 (currentPrice * (1 - 1/4))
  let maxPrice := currentPrice * (1 + 1/4)
  let priceStep := (maxPrice - minPrice) / 15
  (descGrid maxPrice minPrice priceStep).map jsToFixed2

/-- The day offsets of `generateHeatmapData`: multiples of
`dayStep = max(1, ⌊daysToExpiry / 8⌋)` up to `daysToExpiry`, with
`daysToExpiry` appended when the last multiple falls short of it. -/
def heatDateIntervals (daysToExpiry : ℕ) : List ℕ :=
  let dayStep := max 1 (daysToExpiry / 8)
  let base := (List.range (daysToExpiry / dayStep + 1)).map (· * dayStep)
  if base.getLast? = some daysToExpiry then base else base ++ [daysToExpiry]

/-- `parseFloat(x.toFixed(2))` over the reals (used for heatmap cells,
whose values involve Black-Scholes prices). -/
noncomputable def jsToFixed2R (x : ℝ) : ℝ :=
  if 0 ≤ x then ((⌊x * 100 + 1/2⌋ : ℤ) : ℝ) / 100
  else -(((⌊(-x) * 100 + 1/2⌋ : ℤ) : ℝ) / 100)

/-- One heatmap cell: `T = (daysToExpiry - day) / 365`, value
`parseFloat((calculateOptionPrice(price, K, T, r, sigma, type) - premium).toFixed(2))`. -/
noncomputable def heatCell (K premium : ℚ) (optionType : OptionType)
    (daysToExpiry day : ℕ) (sigma r : ℚ) (price : ℚ) : ℝ :=
  let T : ℚ := ((daysToExpiry : ℚ) - (day : ℚ)) / 365
  jsToFixed2R
    (calculateOptionPrice (price : ℝ) (K : ℝ) (T : ℝ) (r : ℝ) (sigma : ℝ)
      optionType - (premium : ℝ))

/-- The record returned by `generateHeatmapData`: each row of `data` pairs a
(rounded) price point with the cell values across `dateIntervals`. -/
structure HeatmapData where
  data : List (ℚ × List ℝ)
  dateIntervals : List ℕ
  pricePoints : List ℚ

/-- `generateHeatmapData(K, premium, optionType, currentPrice, daysToExpiry,
sigma, r)` from the source. -/
noncomputable def generateHeatmapData (K premium : ℚ) (optionType : OptionType)
    (currentPrice : ℚ) (daysToExpiry : ℕ) (sigma r : ℚ) : HeatmapData :=
  let pts := heatPricePoints currentPrice
  let dates := heatDateIntervals daysToExpiry
  { data := pts.map (fun p =>
      (p, dates.map (fun day => heatCell K premium optionType daysToExpiry day sigma r p)))
    dateIntervals := dates
    pricePoints := pts }

-- Strategy template catalog --

/-- One leg shape produced by a template `buildLegs` function: option type,
action, a strike offset in dollars, an optional quantity, and the near/far
term markers used by the two-expiry templates. -/
structure LegShape where
  optionType : OptionType
  action : LegAction
  strikeOffset : ℚ
  qty : Option ℚ := none
  isNearTerm : Bool := false
  isFarTerm : Bool := false
deriving DecidableEq, Repr

/-- One catalog entry of `STRATEGY_TEMPLATES`.  The descriptive prose fields
(`description`, `whenToUse`, `example`, `maxProfit`, `maxLoss`) are omitted
as irrelevant to the verified properties; `buildLegs` in the source is a
function that ignores its arguments and returns a constant array of shapes,
modelled here as that constant list. -/
structure StrategyTemplate where
  name : String
  ttype : String
  legs : ℕ
  riskLevel : String
  requiresMultipleExpiries : Bool := false
  buildLegs : List LegShape
deriving DecidableEq, Repr

/-- `STRATEGY_TEMPLATES` from the source, in declaration order. -/
def STRATEGY_TEMPLATES : List (String × StrategyTemplate) :=
  [ ("longCall",
     { name := "Long Call", ttype := "bullish", legs := 1, riskLevel := "Medium",
       buildLegs := [ { optionType := .call, action := .buy, strikeOffset := 0 } ] }),
    ("longPut",
     { name := "Long Put", ttype := "bearish", legs := 1, riskLevel := "Medium",
       buildLegs := [ { optionType := .put, action := .buy, strikeOffset := 0 } ] }),
    ("coveredCall",
     { name := "Covered Call", ttype := "neutral", legs := 1, riskLevel := "Low",
       buildLegs := [ { optionType := .call, action := .sell, strikeOffset := 5 } ] }),
    ("bullCallSpread",
     { name := "Bull Call Spread", ttype := "bullish", legs := 2, riskLevel := "Low-Medium",
       buildLegs := [ { optionType := .call, action := .buy, strikeOffset := 0 },
                      { optionType := .call, action := .sell, strikeOffset := 5 } ] }),
    ("bearPutSpread",
     { name := "Bear Put Spread", ttype := "bearish", legs := 2, riskLevel := "Low-Medium",
       buildLegs := [ { optionType := .put, action := .buy, strikeOffset := 0 },
                      { optionType := .put, action := .sell, strikeOffset := -5 } ] }),
    ("bullPutSpread",
     { name := "Bull Put Spread", ttype := "bullish", legs := 2, riskLevel := "Low-Medium",
       buildLegs := [ { optionType := .put, action := .sell, strikeOffset := 0 },
                      { optionType := .put, action := .buy, strikeOffset := -5 } ] }),
    ("bearCallSpread",
     { name := "Bear Call Spread", ttype := "bearish", legs := 2, riskLevel := "Low-Medium",
       buildLegs := [ { optionType := .call, action := .sell, strikeOffset := 0 },
                      { optionType := .call, action := .buy, strikeOffset := 5 } ] }),
    ("straddle",
     { name := "Long Straddle", ttype := "neutral", legs := 2, riskLevel := "Medium-High",
       buildLegs := [ { optionType := .call, action := .buy, strikeOffset := 0 },
                      { optionType := .put, action := .buy, strikeOffset := 0 } ] }),
    ("strangle",
     { name := "Long Strangle", ttype := "neutral", legs := 2, riskLevel := "Medium-High",
       buildLegs := [ { optionType := .call, action := .buy, strikeOffset := 5 },
                      { optionType := .put, action := .buy, strikeOffset := -5 } ] }),
    ("ironCondor",
     { name := "Iron Condor", ttype := "neutral", legs := 4, riskLevel := "Low-Medium",
       buildLegs := [ { optionType := .put, action := .buy, strikeOffset := -10 },
                      { optionType := .put, action := .sell, strikeOffset := -5 },
                      { optionType := .call, action := .sell, strikeOffset := 5 },
                      { optionType := .call, action := .buy, strikeOffset := 10 } ] }),
    ("ironButterfly",
     { name := "Iron Butterfly", ttype := "neutral", legs := 4, riskLevel := "Medium",
       buildLegs := [ { optionType := .put, action := .buy, strikeOffset := -5 },
                      { optionType := .put, action := .sell, strikeOffset := 0 },
                      { optionType := .call, action := .sell, strikeOffset := 0 },
                      { optionType := .call, action := .buy, strikeOffset := 5 } ] }),
    ("callButterfly",
     { name := "Call Butterfly", ttype := "neutral", legs := 3, riskLevel := "Low",
       buildLegs := [ { optionType := .call, action := .buy, strikeOffset := -5 },
                      { optionType := .call, action := .sell, strikeOffset := 0, qty := some 2 },
                      { optionType := .call, action := .buy, strikeOffset := 5 } ] }),
    ("putButterfly",
     { name := "Put Butterfly", ttype := "neutral", legs := 3, riskLevel := "Low",
       buildLegs := [ { optionType := .put, action := .buy, strikeOffset := 5 },
                      { optionType := .put, action := .sell, strikeOffset := 0, qty := some 2 },
                      { optionType := .put, action := .buy, strikeOffset := -5 } ] }),
    ("calendarSpread",
     { name := "Calendar Spread", ttype := "neutral", legs := 2, riskLevel := "Medium",
       requiresMultipleExpiries := true,
       buildLegs := [ { optionType := .call, action := .sell, strikeOffset := 0, isNearTerm := true },
                      { optionType := .call, action := .buy, strikeOffset := 0, isFarTerm := true } ] }),
    ("diagonalSpread",
     { name := "Diagonal Spread", ttype := "bullish", legs := 2, riskLevel := "Medium",
       requiresMultipleExpiries := true,
       buildLegs := [ { optionType := .call, action := .sell, strikeOffset := 5, isNearTerm := true },
                      { optionType := .call, action := .buy, strikeOffset := 0, isFarTerm := true } ] }) ]

-- Single-option pricer facts --

/-- For positive time to expiry, `calculateOptionPrice` takes the
Black-Scholes branch. -/
theorem calculateOptionPrice_pos_T (S K T r sigma : ℝ) (hT : 0 < T) :
    calculateOptionPrice S K T r sigma .call
      = S * normalCDF (calculateD1D2 S K T r sigma).1
        - K * Real.exp (-r * T) * normalCDF (calculateD1D2 S K T r sigma).2
    ∧ calculateOptionPrice S K T r sigma .put
      = K * Real.exp (-r * T) * normalCDF (-(calculateD1D2 S K T r sigma).2)
        - S * normalCDF (-(calculateD1D2 S K T r sigma).1) := by
  constructor <;> simp [calculateOptionPrice, not_le.mpr hT]

/-- For positive time and volatility, `d2 = d1 - sigma * sqrt T`. -/
theorem calculateD1D2_sub (S K T r sigma : ℝ) (hT : 0 < T) (hs : 0 < sigma) :
    (calculateD1D2 S K T r sigma).2
      = (calculateD1D2 S K T r sigma).1 - sigma * Real.sqrt T := by
  have hcond : ¬ (T ≤ 0 ∨ sigma ≤ 0) := by
    push_neg
    exact ⟨hT, hs⟩
  simp [calculateD1D2, hcond]

/-- Claim C1 (counterexample): with `T = 1 > 0` and `sigma = 0`,
`calculateOptionPrice(110, 100, 1, 0, 0, call)` is not the intrinsic value
`10`: the source only falls back to intrinsic value when `T ≤ 0`, and here
evaluates the Black-Scholes expression at `d1 = d2 = 0`, giving
`10 * normalCDF 0 = 5.000000005`. -/
theorem c1_counterexample :
    calculateOptionPrice 110 100 1 0 0 OptionType.call
      ≠ intrinsicValue OptionType.call 110 100 := by
  have hd : calculateD1D2 110 100 1 0 0 = (0, 0) := by
    simp [calculateD1D2]
  have h1 : ¬ ((1:ℝ) ≤ 0) := by norm_num
  simp only [calculateOptionPrice, hd, if_neg h1]
  rw [normalCDF_zero]
  simp only [intrinsicValue]
  norm_num

/-- Claim C1 (amended): `calculateOptionPrice` returns the intrinsic value
whenever `T ≤ 0`; `calculateGreeks` returns the intrinsic value as price
with the moneyness step delta and zero gamma/theta/vega/rho whenever
`T ≤ 0` or `sigma ≤ 0`; but for `T > 0` and `sigma ≤ 0`,
`calculateOptionPrice` instead evaluates the Black-Scholes expression at
`d1 = d2 = 0`. -/
theorem c1_degenerate_amended :
    (∀ (S K T r sigma : ℝ) (t : OptionType), T ≤ 0 →
        calculateOptionPrice S K T r sigma t = intrinsicValue t S K)
    ∧ (∀ (S K T r sigma : ℝ) (t : OptionType), T ≤ 0 ∨ sigma ≤ 0 →
        calculateGreeks S K T r sigma t =
          { delta := match t with
              | .call => if K < S then 1 else 0
              | .put => if S < K then -1 else 0
            gamma := 0, theta := 0, vega := 0, rho := 0
            price := intrinsicValue t S K })
    ∧ (∀ (S K T r sigma : ℝ), 0 < T → sigma ≤ 0 →
        calculateOptionPrice S K T r sigma OptionType.call
          = S * normalCDF 0 - K * Real.exp (-r * T) * normalCDF 0
        ∧ calculateOptionPrice S K T r sigma OptionType.put
          = K * Real.exp (-r * T) * normalCDF 0 - S * normalCDF 0) := by
  refine ⟨?_, ?_, ?_⟩
  · intro S K T r sigma t h
    simp [calculateOptionPrice, if_pos h]
  · intro S K T r sigma t h
    simp [calculateGreeks, if_pos h]
  · intro S K T r sigma hT hs
    have hd : calculateD1D2 S K T r sigma = (0, 0) := by
      simp [calculateD1D2, Or.inr hs]
    constructor <;> simp [calculateOptionPrice, hd, not_le.mpr hT, neg_zero]

/-- Claim C1 (witness): concrete instantiations of the amended theorem. -/
theorem c1_witness :
    calculateOptionPrice 5 3 0 (1/20) (3/10) OptionType.call
      = intrinsicValue OptionType.call 5 3
    ∧ calculateGreeks 5 3 0 (1/20) (3/10) OptionType.call =
        { delta := if (3:ℝ) < 5 then 1 else 0, gamma := 0, theta := 0,
          vega := 0, rho := 0, price := intrinsicValue OptionType.call 5 3 }
    ∧ calculateOptionPrice 2 1 1 0 0 OptionType.call
      = 2 * normalCDF 0 - 1 * Real.exp (-0 * 1) * normalCDF 0 :=
  ⟨c1_degenerate_amended.1 5 3 0 (1/20) (3/10) .call (le_refl 0),
   c1_degenerate_amended.2.1 5 3 0 (1/20) (3/10) .call (Or.inl (le_refl 0)),
   (c1_degenerate_amended.2.2 2 1 1 0 0 (by norm_num) (le_refl 0)).1⟩

/-- Claim C3 (counterexample): the symmetry identity fails at `x = 0`:
`normalCDF 0 + normalCDF (-0) = 1.000000001 ≠ 1` (equivalently
`normalCDF 0 = 0.5000000005 ≠ 0.5`), because the five polynomial
coefficients of the source sum to `0.999999999` rather than `1`. -/
theorem c3_counterexample : normalCDF 0 + normalCDF (-0) ≠ 1 := by
  rw [neg_zero, normalCDF_zero]
  norm_num

/-- Claim C3 (amended): the approximation is exactly symmetric away from
zero (`normalCDF x + normalCDF (-x) = 1` for all `x ≠ 0`), while
`normalCDF 0` is exactly `0.5 + 5e-10`. -/
theorem c3_symmetry_amended :
    (∀ x : ℝ, x ≠ 0 → normalCDF x + normalCDF (-x) = 1)
    ∧ normalCDF 0 = 1/2 + 1/2000000000 :=
  ⟨fun _ hx => normalCDF_add_neg hx, normalCDF_zero⟩

/-- Claim C3 (witness): the amended symmetry at `x = 1`. -/
theorem c3_witness : (1:ℝ) ≠ 0 ∧ normalCDF 1 + normalCDF (-1) = 1 :=
  ⟨one_ne_zero, c3_symmetry_amended.1 1 one_ne_zero⟩

/-- Claim C4 (counterexample): exact put-call parity fails beyond the 1e-6
tolerance on the knife edge `d1 = 0` when `S` is large: at
`S = K = 10^7, T = 1, r = -1/2, sigma = 1` we get `d1 = 0`, and
`call - put - (S - K e^(-rT)) = 2 * S * 5e-10 = 0.01 > 1e-6`. -/
theorem c4_counterexample :
    ¬ (|calculateOptionPrice 10000000 10000000 1 (-(1/2)) 1 OptionType.call
        - calculateOptionPrice 10000000 10000000 1 (-(1/2)) 1 OptionType.put
        - (10000000 - 10000000 * Real.exp (-(-(1/2)) * 1))| ≤ 1/1000000) := by
  have hd : calculateD1D2 10000000 10000000 1 (-(1/2)) 1 = (0, -1) := by
    have hcond : ¬ ((1:ℝ) ≤ 0 ∨ (1:ℝ) ≤ 0) := by norm_num
    have hlog : Real.log ((10000000 : ℝ) / 10000000) = 0 := by
      norm_num
    simp only [calculateD1D2, if_neg hcond, hlog, Real.sqrt_one]
    norm_num
  obtain ⟨hc, hp⟩ :=
    calculateOptionPrice_pos_T 10000000 10000000 1 (-(1/2)) 1 one_pos
  rw [hd] at hc hp
  simp only [neg_zero, neg_neg] at hc hp
  have hsum : normalCDF 1 + normalCDF (-1) = 1 := normalCDF_add_neg one_ne_zero
  rw [show (-(-(1/2)) * 1 : ℝ) = 1/2 * 1 from by norm_num, hc, hp, normalCDF_zero]
  have hval :
      (10000000:ℝ) * (1/2 + 1/2000000000)
        - 10000000 * Real.exp (1/2 * 1) * normalCDF (-1)
        - (10000000 * Real.exp (1/2 * 1) * normalCDF 1
            - 10000000 * (1/2 + 1/2000000000))
        - (10000000 - 10000000 * Real.exp (1/2 * 1)) = 1/100 := by
    linear_combination (-(10000000 * Real.exp (1/2 * 1))) * hsum
  rw [hval, abs_of_pos (by norm_num : (0:ℝ) < 1/100)]
  norm_num

/-- Claim C4 (amended): put-call parity holds within the 1e-6 tolerance for
all `S, K, T, sigma > 0` and all `r`, provided `S ≤ 1000` and
`K e^(-rT) ≤ 1000`; away from the measure-zero knife edges `d1 = 0` and
`d2 = 0` the identity is in fact exact, and on a knife edge the deviation
is exactly `S * 1e-9` (respectively `-K e^(-rT) * 1e-9`). -/
theorem c4_parity_amended (S K T r sigma : ℝ) (hS : 0 < S) (hK : 0 < K)
    (hT : 0 < T) (hsig : 0 < sigma) (hSb : S ≤ 1000)
    (hKb : K * Real.exp (-r * T) ≤ 1000) :
    |calculateOptionPrice S K T r sigma OptionType.call
      - calculateOptionPrice S K T r sigma OptionType.put
      - (S - K * Real.exp (-r * T))| ≤ 1/1000000 := by
  obtain ⟨hc, hp⟩ := calculateOptionPrice_pos_T S K T r sigma hT
  have hsub := calculateD1D2_sub S K T r sigma hT hsig
  set d1 := (calculateD1D2 S K T r sigma).1 with hd1
  set d2 := (calculateD1D2 S K T r sigma).2 with hd2
  have hst : 0 < sigma * Real.sqrt T := mul_pos hsig (Real.sqrt_pos.mpr hT)
  have hE : 0 < Real.exp (-r * T) := Real.exp_pos _
  rw [hc, hp]
  by_cases h1 : d1 = 0
  · have hd2v : d2 = -(sigma * Real.sqrt T) := by
      rw [hsub, h1]
      ring
    have h2 : d2 ≠ 0 := by
      rw [hd2v]
      exact neg_ne_zero.mpr (ne_of_gt hst)
    have e1 : normalCDF d1 + normalCDF (-d1) = 1 + 1/1000000000 := by
      rw [h1, neg_zero, normalCDF_zero]
      norm_num
    have e2 := normalCDF_add_neg h2
    have hval : S * normalCDF d1 - K * Real.exp (-r * T) * normalCDF d2
        - (K * Real.exp (-r * T) * normalCDF (-d2) - S * normalCDF (-d1))
        - (S - K * Real.exp (-r * T)) = S * (1/1000000000) := by
      linear_combination S * e1 - (K * Real.exp (-r * T)) * e2
    rw [hval, abs_of_nonneg (by positivity)]
    linarith
  · by_cases h2 : d2 = 0
    · have e2 : normalCDF d2 + normalCDF (-d2) = 1 + 1/1000000000 := by
        rw [h2, neg_zero, normalCDF_zero]
        norm_num
      have e1 := normalCDF_add_neg h1
      have hval : S * normalCDF d1 - K * Real.exp (-r * T) * normalCDF d2
          - (K * Real.exp (-r * T) * normalCDF (-d2) - S * normalCDF (-d1))
          - (S - K * Real.exp (-r * T))
          = -(K * Real.exp (-r * T) * (1/1000000000)) := by
        linear_combination S * e1 - (K * Real.exp (-r * T)) * e2
      rw [hval, abs_neg, abs_of_nonneg (by positivity)]
      nlinarith
    · have e1 := normalCDF_add_neg h1
      have e2 := normalCDF_add_neg h2
      have hval : S * normalCDF d1 - K * Real.exp (-r * T) * normalCDF d2
          - (K * Real.exp (-r * T) * normalCDF (-d2) - S * normalCDF (-d1))
          - (S - K * Real.exp (-r * T)) = 0 := by
        linear_combination S * e1 - (K * Real.exp (-r * T)) * e2
      rw [hval]
      norm_num

/-- Claim C4 (witness): the amended parity bound at
`S = K = 100, T = 1, r = 0, sigma = 1`. -/
theorem c4_witness :
    (0:ℝ) < 100 ∧ (0:ℝ) < 100 ∧ (0:ℝ) < 1 ∧ (0:ℝ) < 1 ∧ (100:ℝ) ≤ 1000
    ∧ (100:ℝ) * Real.exp (-0 * 1) ≤ 1000
    ∧ |calculateOptionPrice 100 100 1 0 1 OptionType.call
        - calculateOptionPrice 100 100 1 0 1 OptionType.put
        - (100 - 100 * Real.exp (-0 * 1))| ≤ 1/1000000 :=
  ⟨by norm_num, by norm_num, by norm_num, by norm_num, by norm_num,
   by rw [show (-0 * 1 : ℝ) = 0 by norm_num, Real.exp_zero]; norm_num,
   c4_parity_amended 100 100 1 0 1 (by norm_num) (by norm_num) (by norm_num)
     (by norm_num) (by norm_num)
     (by rw [show (-0 * 1 : ℝ) = 0 by norm_num, Real.exp_zero]; norm_num)⟩

-- Concrete strategies for the metrics claims --

/-- A long straddle at strike 100: bought call and bought put, premium 5,
quantity 1 each. -/
def straddleLegs : List Leg :=
  [ { optionType := .call, action := .buy, strike := 100, premium := 5,
      qty := some 1, expiration := 0, iv := none },
    { optionType := .put, action := .buy, strike := 100, premium := 5,
      qty := some 1, expiration := 0, iv := none } ]

/-- An iron condor (put bought at 85, put sold at 90, call sold at 110,
call bought at 115, quantity 1 each) with parametric premiums. -/
def condorLegs (p1 p2 p3 p4 : ℚ) : List Leg :=
  [ { optionType := .put, action := .buy, strike := 85, premium := p1,
      qty := some 1, expiration := 0, iv := none },
    { optionType := .put, action := .sell, strike := 90, premium := p2,
      qty := some 1, expiration := 0, iv := none },
    { optionType := .call, action := .sell, strike := 110, premium := p3,
      qty := some 1, expiration := 0, iv := none },
    { optionType := .call, action := .buy, strike := 115, premium := p4,
      qty := some 1, expiration := 0, iv := none } ]

set_option maxRecDepth 100000 in
set_option maxHeartbeats 2000000 in
/-- Fully evaluated strategy metrics for the long straddle at
`currentPrice = 100`, default `range = 0.5`.  The price scan is split into
two halves so that each kernel reduction stays within stack limits. -/
theorem straddleLegs_metrics :
    calculateStrategyMetrics straddleLegs 100 (1/2) =
      { maxProfit := .posInf, maxLoss := .fin (-1000), maxProfitPrice := 50,
        maxLossPrice := 100, breakevens := [181/2, 110], netPremium := -1000,
        isDebit := true, isCredit := false } := by
  have hgrid : ascGrid (max (1/100) ((100:ℚ) * (1 - 1/2))) ((100:ℚ) * (1 + 1/2)) (1/2)
      = (List.range 101).map (fun (k : ℕ) => (50:ℚ) + (k:ℚ) * (1/2))
        ++ (List.range 100).map (fun (k : ℕ) => (50:ℚ) + ((101 + k : ℕ):ℚ) * (1/2)) := by
    with_unfolding_all rfl
  have h1 : ((List.range 101).map (fun (k : ℕ) => (50:ℚ) + (k:ℚ) * (1/2))).foldl
      (metricsStep (strategyPnLExp straddleLegs)) ⟨.negInf, .posInf, 100, 100, [], none⟩
      = ⟨.fin 4000, .fin (-1000), 50, 100, [181/2], some (-1000)⟩ := by
    with_unfolding_all rfl
  have h2 : ((List.range 100).map (fun (k : ℕ) => (50:ℚ) + ((101 + k : ℕ):ℚ) * (1/2))).foldl
      (metricsStep (strategyPnLExp straddleLegs))
      ⟨.fin 4000, .fin (-1000), 50, 100, [181/2], some (-1000)⟩
      = ⟨.fin 4000, .fin (-1000), 50, 100, [181/2, 110], some 4000⟩ := by
    with_unfolding_all rfl
  simp only [calculateStrategyMetrics, hgrid, List.foldl_append, h1, h2]
  with_unfolding_all rfl

/-- Claim C2 (counterexample): the straddle breakevens returned by
`calculateStrategyMetrics` are not `[90, 110]`: the scan records the price at
which the sign change is observed, and the downward crossing at the grid
point 90 (where the P&L is exactly 0, hence still nonnegative) is recorded
one step later, at 90.5. -/
theorem c2_counterexample :
    (calculateStrategyMetrics straddleLegs 100 (1/2)).breakevens ≠ [90, 110] := by
  rw [straddleLegs_metrics]
  norm_num

/-- Claim C2 (amended): for the long straddle (strike 100, premiums 5,
quantity 1) at `currentPrice = 100` with the default range 0.5, the
breakevens are `[90.5, 110]` (ascending), `maxLoss = -1000`, and
`maxProfit = +Infinity` via the unbounded-upside heuristic. -/
theorem c2_straddle_amended :
    (calculateStrategyMetrics straddleLegs 100 (1/2)).breakevens = [181/2, 110]
    ∧ (calculateStrategyMetrics straddleLegs 100 (1/2)).maxLoss = .fin (-1000)
    ∧ (calculateStrategyMetrics straddleLegs 100 (1/2)).maxProfit = .posInf := by
  refine ⟨?_, ?_, ?_⟩ <;> rw [straddleLegs_metrics]

/-- `calculateStrategyMetrics` depends on the legs only through the
at-expiration P&L function and the net premium. -/
theorem calculateStrategyMetrics_congr (l1 l2 : List Leg) (cp range : ℚ)
    (hp : ∀ x, strategyPnLExp l1 x = strategyPnLExp l2 x)
    (hn : netPremiumOf l1 = netPremiumOf l2) :
    calculateStrategyMetrics l1 cp range = calculateStrategyMetrics l2 cp range := by
  have hf : strategyPnLExp l1 = strategyPnLExp l2 := funext hp
  simp only [calculateStrategyMetrics, hf, hn]

/-- Two iron condors with the same strikes and the same net credit have the
same at-expiration P&L at every stock price (premiums enter only through
their signed sum). -/
theorem condor_pnl_eq (p1 p2 p3 p4 : ℚ) (h : -p1 + p2 + p3 - p4 = 2) (x : ℚ) :
    strategyPnLExp (condorLegs p1 p2 p3 p4) x
      = strategyPnLExp (condorLegs 1 2 2 1) x := by
  simp only [strategyPnLExp, condorLegs, List.map_cons, List.map_nil,
    List.sum_cons, List.sum_nil, legPnLExp, LegAction.sign, Leg.qtyD,
    legIntrinsic, Option.getD_some]
  linear_combination (100:ℚ) * h

/-- The net premium of the parametric condor with net credit 2 is 200. -/
theorem condor_netPremium (p1 p2 p3 p4 : ℚ) (h : -p1 + p2 + p3 - p4 = 2) :
    netPremiumOf (condorLegs p1 p2 p3 p4) = 200 := by
  simp [netPremiumOf, condorLegs]
  linear_combination (100:ℚ) * h

set_option maxRecDepth 100000 in
set_option maxHeartbeats 2000000 in
/-- Fully evaluated strategy metrics for the condor with premiums
`(1, 2, 2, 1)` at `currentPrice = 100`, `range = 0.5`, scan split in two. -/
theorem condorLegs_metrics :
    calculateStrategyMetrics (condorLegs 1 2 2 1) 100 (1/2) =
      { maxProfit := .fin 200, maxLoss := .fin (-300), maxProfitPrice := 90,
        maxLossPrice := 50, breakevens := [88, 225/2], netPremium := 200,
        isDebit := false, isCredit := true } := by
  have hgrid : ascGrid (max (1/100) ((100:ℚ) * (1 - 1/2))) ((100:ℚ) * (1 + 1/2)) (1/2)
      = (List.range 101).map (fun (k : ℕ) => (50:ℚ) + (k:ℚ) * (1/2))
        ++ (List.range 100).map (fun (k : ℕ) => (50:ℚ) + ((101 + k : ℕ):ℚ) * (1/2)) := by
    with_unfolding_all rfl
  have h1 : ((List.range 101).map (fun (k : ℕ) => (50:ℚ) + (k:ℚ) * (1/2))).foldl
      (metricsStep (strategyPnLExp (condorLegs 1 2 2 1)))
      ⟨.negInf, .posInf, 100, 100, [], none⟩
      = ⟨.fin 200, .fin (-300), 90, 50, [88], some 200⟩ := by
    with_unfolding_all rfl
  have h2 : ((List.range 100).map (fun (k : ℕ) => (50:ℚ) + ((101 + k : ℕ):ℚ) * (1/2))).foldl
      (metricsStep (strategyPnLExp (condorLegs 1 2 2 1)))
      ⟨.fin 200, .fin (-300), 90, 50, [88], some 200⟩
      = ⟨.fin 200, .fin (-300), 90, 50, [88, 225/2], some (-300)⟩ := by
    with_unfolding_all rfl
  simp only [calculateStrategyMetrics, hgrid, List.foldl_append, h1, h2]
  with_unfolding_all rfl

/-- The `netPremium` fold of the source written as a signed sum over legs,
with the sign `+1` for sold and `-1` for bought legs. -/
theorem netPremiumOf_eq_sum (legs : List Leg) :
    netPremiumOf legs = (legs.map (fun l =>
      (if l.action = .sell then (1:ℚ) else -1) * l.premium * 100 *
        (match l.qty with
         | none => 1
         | some q => if q = 0 then 1 else q))).sum := by
  have key : ∀ (ls : List Leg) (s : ℚ),
      ls.foldl (fun a l =>
        a + (if l.action = .buy then (-1 : ℚ) else 1) * l.premium * 100 *
          (match l.qty with
           | none => 1
           | some q => if q = 0 then 1 else q)) s
      = s + (ls.map (fun l =>
          (if l.action = .sell then (1:ℚ) else -1) * l.premium * 100 *
            (match l.qty with
             | none => 1
             | some q => if q = 0 then 1 else q))).sum := by
    intro ls
    induction ls with
    | nil => intro s; simp
    | cons hd tl ih =>
        intro s
        have hsign : (if hd.action = .buy then (-1 : ℚ) else 1)
            = (if hd.action = .sell then (1:ℚ) else -1) := by
          cases hd.action <;> simp
        simp only [List.foldl_cons, List.map_cons, List.sum_cons, ih, hsign]
        ring
  have h0 := key legs 0
  rw [zero_add] at h0
  exact h0

/-- Claim C7: an iron condor `put buy@85, put sell@90, call sell@110,
call buy@115` (quantity 1 each) whose premiums net to a $2.00 credit has
`netPremium = 200`, `isCredit = true`, and `maxLoss = -300` at
`currentPrice = 100` (range 0.5); and in general `netPremium` is the signed
premium sum (`+` for sell, `-` for buy, scaled by 100 and quantity) with
`isCredit` exactly when that sum is positive. -/
theorem c7_condor_metrics (p1 p2 p3 p4 : ℚ) (h : -p1 + p2 + p3 - p4 = 2) :
    (calculateStrategyMetrics (condorLegs p1 p2 p3 p4) 100 (1/2)).netPremium = 200
    ∧ (calculateStrategyMetrics (condorLegs p1 p2 p3 p4) 100 (1/2)).isCredit = true
    ∧ (calculateStrategyMetrics (condorLegs p1 p2 p3 p4) 100 (1/2)).maxLoss = .fin (-300)
    ∧ ∀ (legs : List Leg) (cp range : ℚ),
        (calculateStrategyMetrics legs cp range).netPremium
          = (legs.map (fun l =>
              (if l.action = .sell then (1:ℚ) else -1) * l.premium * 100 *
                (match l.qty with
                 | none => 1
                 | some q => if q = 0 then 1 else q))).sum
        ∧ ((calculateStrategyMetrics legs cp range).isCredit = true
            ↔ 0 < (calculateStrategyMetrics legs cp range).netPremium) := by
  have hm : calculateStrategyMetrics (condorLegs p1 p2 p3 p4) 100 (1/2)
      = calculateStrategyMetrics (condorLegs 1 2 2 1) 100 (1/2) :=
    calculateStrategyMetrics_congr _ _ 100 (1/2) (condor_pnl_eq p1 p2 p3 p4 h)
      (by rw [condor_netPremium p1 p2 p3 p4 h,
              condor_netPremium 1 2 2 1 (by norm_num)])
  refine ⟨?_, ?_, ?_, ?_⟩
  · rw [hm, condorLegs_metrics]
  · rw [hm, condorLegs_metrics]
  · rw [hm, condorLegs_metrics]
  · intro legs cp range
    constructor
    · show netPremiumOf legs = _
      exact netPremiumOf_eq_sum legs
    · show decide (0 < netPremiumOf legs) = true ↔ 0 < netPremiumOf legs
      exact decide_eq_true_iff

-- Defaults, expired legs, and clock dependence --

/-- Casting a mapped rational sum into the reals. -/
theorem ratCast_sum_map (f : Leg → ℚ) (legs : List Leg) :
    (legs.map (fun l => ((f l : ℚ) : ℝ))).sum = (((legs.map f).sum : ℚ) : ℝ) := by
  induction legs with
  | nil => simp
  | cons hd tl ih =>
      simp only [List.map_cons, List.sum_cons, ih]
      push_cast
      ring

/-- With `atExpiration = true`, `calculateStrategyPnL` is the cast of the
rational at-expiration P&L; in particular it ignores `daysFromNow`, `r`,
and the evaluation instant. -/
theorem calculateStrategyPnL_true (legs : List Leg) (S d r now : ℚ) :
    calculateStrategyPnL legs S true d r now = ((strategyPnLExp legs S : ℚ) : ℝ) := by
  simp only [calculateStrategyPnL, if_true, strategyPnLExp]
  exact ratCast_sum_map (legPnLExp S) legs

/-- Claim C10: in each strategy operation, a leg without an explicit
quantity is treated as quantity 1 and a leg without an explicit implied
volatility is priced with `iv = 0.3`: the result is unchanged when those
fields are set explicitly. -/
theorem c10_leg_defaults (l : Leg) (pre suf : List Leg) (S : ℚ) (atExp : Bool)
    (d r now cp range : ℚ) :
    (calculateStrategyPnL (pre ++ { l with qty := none, iv := none } :: suf) S atExp d r now
      = calculateStrategyPnL (pre ++ { l with qty := some 1, iv := some 0.3 } :: suf) S atExp d r now)
    ∧ (calculateStrategyGreeks (pre ++ { l with qty := none, iv := none } :: suf) S r now
      = calculateStrategyGreeks (pre ++ { l with qty := some 1, iv := some 0.3 } :: suf) S r now)
    ∧ (calculateStrategyMetrics (pre ++ { l with qty := none, iv := none } :: suf) cp range
      = calculateStrategyMetrics (pre ++ { l with qty := some 1, iv := some 0.3 } :: suf) cp range) := by
  have hexp : ∀ x : ℚ, legPnLExp x { l with qty := none, iv := none }
      = legPnLExp x { l with qty := some 1, iv := some 0.3 } := by
    intro x
    simp [legPnLExp, Leg.qtyD]
  have hpre : legPnLPre S d r now { l with qty := none, iv := none }
      = legPnLPre S d r now { l with qty := some 1, iv := some 0.3 } := by
    simp [legPnLPre, Leg.qtyD, Leg.ivD]
  refine ⟨?_, ?_, ?_⟩
  · simp only [calculateStrategyPnL, List.map_append, List.map_cons,
      List.sum_append, List.sum_cons]
    cases atExp <;> simp [hexp S, hpre]
  · have hstep : ∀ acc, greeksStep S r now acc { l with qty := none, iv := none }
        = greeksStep S r now acc { l with qty := some 1, iv := some 0.3 } := by
      intro acc
      simp [greeksStep, Leg.qtyD, Leg.ivD]
    simp only [calculateStrategyGreeks, List.foldl_append, List.foldl_cons, hstep]
  · refine calculateStrategyMetrics_congr _ _ cp range (fun x => ?_) ?_
    · simp only [strategyPnLExp, List.map_append, List.map_cons,
        List.sum_append, List.sum_cons, hexp x]
    · rw [netPremiumOf_eq_sum, netPremiumOf_eq_sum]
      simp only [List.map_append, List.map_cons, List.sum_append, List.sum_cons]
      norm_num

/-- A bought call, strike 100, premium 0, quantity defaulted, expiring at
epoch instant 0, with an explicit implied volatility of 0 (which the
destructuring default does not override). -/
def expiredLeg : Leg :=
  { optionType := .call, action := .buy, strike := 100, premium := 0,
    qty := none, expiration := 0, iv := some 0 }

/-- The Black-Scholes value the source assigns to `expiredLeg` when it
still sees a year of (absolute) time: `10 * normalCDF 0`. -/
theorem optionPrice_110_sigma0 :
    calculateOptionPrice 110 100 1 0 0 OptionType.call = 10 * (1/2 + 1/2000000000) := by
  have hd : calculateD1D2 110 100 1 0 0 = (0, 0) := by
    simp [calculateD1D2]
  have h1 : ¬ ((1:ℝ) ≤ 0) := by norm_num
  simp only [calculateOptionPrice, hd, if_neg h1]
  rw [normalCDF_zero]
  norm_num

/-- `daysBetween` sees 365 days between the epoch and one year later,
in either order (the source takes an absolute value). -/
theorem daysBetween_year : daysBetween 31536000000 0 = 365 := by
  have habs : |(0:ℚ) - 31536000000| = 31536000000 := by
    rw [abs_of_nonpos (by norm_num)]
    norm_num
  rw [daysBetween, habs, jsRound]
  norm_num


/-- `daysBetween` at coincident instants is zero. -/
theorem daysBetween_zero : daysBetween 0 (0:ℚ) = 0 := by
  rw [daysBetween, jsRound]
  norm_num

/-- General expired-leg decomposition (helper): when the day count of a leg
minus `daysFromNow` is nonpositive, the leg contributes its intrinsic-based
P&L inside `calculateStrategyPnL` with `atExpiration = false`, whatever the
surrounding legs are. -/
theorem strategyPnL_expired_leg (l : Leg) (pre suf : List Leg) (S d r now : ℚ)
    (h : ((daysBetween now l.expiration : ℤ) : ℚ) - d ≤ 0) :
    calculateStrategyPnL (pre ++ l :: suf) S false d r now
      = calculateStrategyPnL pre S false d r now
        + ((l.action.sign * (legIntrinsic l.optionType S l.strike - l.premium)
            * 100 * l.qtyD : ℚ) : ℝ)
        + calculateStrategyPnL suf S false d r now := by
  have hT : max (0:ℚ) ((((daysBetween now l.expiration : ℤ) : ℚ) - d) / 365) ≤ 0 := by
    apply max_le (le_refl 0)
    apply div_nonpos_of_nonpos_of_nonneg h
    norm_num
  have hleg : legPnLPre S d r now l
      = ((l.action.sign * (legIntrinsic l.optionType S l.strike - l.premium)
          * 100 * l.qtyD : ℚ) : ℝ) := by
    simp only [legPnLPre, if_pos hT]
    push_cast
    ring
  simp only [calculateStrategyPnL, List.map_append, List.map_cons,
    List.sum_append, List.sum_cons, Bool.false_eq_true, if_false, hleg]
  ring

/-- The source strategy P&L prices `expiredLeg` via Black-Scholes when the
evaluation instant is one year after its expiration: `daysBetween` takes an
absolute value, so the leg appears to have 365 days left. -/
theorem strategyPnL_expiredLeg_bs :
    calculateStrategyPnL [expiredLeg] 110 false 0 0 31536000000
      = 100 * (10 * (1/2 + 1/2000000000)) := by
  have hexp : expiredLeg.expiration = 0 := rfl
  have hdb : ((daysBetween 31536000000 expiredLeg.expiration : ℤ) : ℚ) - 0 = 365 := by
    rw [hexp, daysBetween_year]
    norm_num
  have hiv : ((expiredLeg.ivD : ℚ) : ℝ) = 0 := by
    norm_num [Leg.ivD, expiredLeg]
  have hqty : ((expiredLeg.qtyD : ℚ) : ℝ) = 1 := by
    norm_num [Leg.qtyD, expiredLeg]
  have hsign : ((expiredLeg.action.sign : ℚ) : ℝ) = 1 := by
    norm_num [LegAction.sign, expiredLeg]
  have hstrike : ((expiredLeg.strike : ℚ) : ℝ) = 100 := by
    norm_num [expiredLeg]
  have hprem : ((expiredLeg.premium : ℚ) : ℝ) = 0 := by
    norm_num [expiredLeg]
  have htype : expiredLeg.optionType = OptionType.call := rfl
  simp only [calculateStrategyPnL, List.map_cons, List.map_nil, List.sum_cons,
    List.sum_nil, Bool.false_eq_true, if_false, legPnLPre, hdb, hiv, hqty,
    hsign, hstrike, hprem, htype]
  rw [show max (0:ℚ) (365 / 365) = 1 by norm_num]
  rw [if_neg (by norm_num : ¬ ((1:ℚ) ≤ 0))]
  rw [show ((110:ℚ):ℝ) = 110 by norm_num, show ((1:ℚ):ℝ) = 1 by norm_num,
    show ((0:ℚ):ℝ) = 0 by norm_num]
  rw [optionPrice_110_sigma0]
  ring

/-- Claim C5 (counterexample): `expiredLeg` expired one year before the
query instant (signed remaining time `-365` days, certainly ≤ 0), yet its
contribution is not the intrinsic-based one (`(10 - 0) * 100 = 1000`):
the absolute value inside `daysBetween` makes the engine price it with a
full year on the clock, giving `1000 * normalCDF 0 ≈ 500`. -/
theorem c5_counterexample :
    expiredLeg.expiration - 31536000000 - 0 ≤ 0
    ∧ calculateStrategyPnL [expiredLeg] 110 false 0 0 31536000000
        ≠ (expiredLeg.action.sign : ℝ)
          * ((legIntrinsic expiredLeg.optionType 110 expiredLeg.strike : ℚ) : ℝ)
          * 100 * (expiredLeg.qtyD : ℝ) := by
  constructor
  · norm_num [expiredLeg]
  · rw [strategyPnL_expiredLeg_bs]
    norm_num [expiredLeg, legIntrinsic, Leg.qtyD, LegAction.sign]

/-- Claim C5 (amended): a leg falls back to intrinsic value exactly when
`Math.round(|expiration - now| / oneDay) - daysFromNow ≤ 0` — the absolute
day distance, not the signed remaining time (so a leg expired in the past
is generally still Black-Scholes priced).  When the condition holds, the
leg contributes `sign * (intrinsic - premium) * 100 * qty` even while the
other legs are priced by Black-Scholes. -/
theorem c5_expired_leg_amended (l : Leg) (pre suf : List Leg) (S d r now : ℚ)
    (h : ((daysBetween now l.expiration : ℤ) : ℚ) - d ≤ 0) :
    calculateStrategyPnL (pre ++ l :: suf) S false d r now
      = calculateStrategyPnL pre S false d r now
        + ((l.action.sign * (legIntrinsic l.optionType S l.strike - l.premium)
            * 100 * l.qtyD : ℚ) : ℝ)
        + calculateStrategyPnL suf S false d r now :=
  strategyPnL_expired_leg l pre suf S d r now h

/-- An at-the-money bought call used as a concrete witness input. -/
def atmCallLeg : Leg :=
  { optionType := .call, action := .buy, strike := 100, premium := 5,
    qty := some 1, expiration := 0, iv := none }

/-- Claim C5 (witness): a leg expiring exactly at the query instant
(`daysBetween = 0 ≤ 0`) contributes its intrinsic value. -/
theorem c5_witness :
    (((daysBetween 0 atmCallLeg.expiration : ℤ) : ℚ) - 0 ≤ 0)
    ∧ calculateStrategyPnL ([] ++ atmCallLeg :: []) 110 false 0 0 0
      = calculateStrategyPnL [] 110 false 0 0 0
        + ((atmCallLeg.action.sign
            * (legIntrinsic atmCallLeg.optionType 110 atmCallLeg.strike - atmCallLeg.premium)
            * 100 * atmCallLeg.qtyD : ℚ) : ℝ)
        + calculateStrategyPnL [] 110 false 0 0 0 :=
  ⟨by rw [show atmCallLeg.expiration = 0 from rfl, daysBetween_zero]; norm_num,
   c5_expired_leg_amended atmCallLeg [] [] 110 0 0 0
     (by rw [show atmCallLeg.expiration = 0 from rfl, daysBetween_zero]; norm_num)⟩

/-- Claim C6 (counterexample): `calculateStrategyPnL` with
`atExpiration = false` is not independent of the wall clock: the same legs
and arguments evaluated at the epoch and one year later give different
results (1000 at the expiry instant versus about 500 a year later). -/
theorem c6_counterexample :
    calculateStrategyPnL [expiredLeg] 110 false 0 0 0
      ≠ calculateStrategyPnL [expiredLeg] 110 false 0 0 31536000000 := by
  have hdb : ((daysBetween 0 expiredLeg.expiration : ℤ) : ℚ) - 0 ≤ 0 := by
    rw [show expiredLeg.expiration = 0 from rfl, daysBetween_zero]
    norm_num
  have hleft := strategyPnL_expired_leg expiredLeg [] [] 110 0 0 0 hdb
  rw [show ([] ++ expiredLeg :: []) = [expiredLeg] from rfl] at hleft
  rw [hleft, strategyPnL_expiredLeg_bs]
  have hempty : calculateStrategyPnL [] 110 false 0 0 0 = 0 := by
    simp [calculateStrategyPnL]
  rw [hempty]
  norm_num [expiredLeg, legIntrinsic, Leg.qtyD, LegAction.sign]

/-- Claim C6 (amended): the single-option pricer and Greeks take no clock
input at all, and at-expiration strategy P&L (hence
`calculateStrategyMetrics`, which only evaluates at-expiration P&L) is
independent of the evaluation instant; but pre-expiration strategy P&L and
`calculateStrategyGreeks` read the wall clock and can return different
results for identical arguments at different instants. -/
theorem c6_determinism_amended :
    ∀ (legs : List Leg) (S d r now now2 : ℚ),
      calculateStrategyPnL legs S true d r now
        = calculateStrategyPnL legs S true d r now2 := by
  intro legs S d r now now2
  rw [calculateStrategyPnL_true, calculateStrategyPnL_true]

/-- Claim C9 (counterexample): the catalog contains 15 named templates, not
14 (the spec count omits one of: long call, long put, covered call, four
vertical spreads, straddle, strangle, iron condor, iron butterfly, two
butterflies, calendar spread, diagonal spread). -/
theorem c9_counterexample : STRATEGY_TEMPLATES.length ≠ 14 := by
  decide

/-- Claim C9 (amended): the catalog contains exactly 15 named templates in
declaration order; every template's shape list has the declared number of
legs and every strike offset is an integer multiple of the $5 width unit;
the butterfly templates' middle legs carry quantity 2; and exactly the
calendar and diagonal spreads declare `requiresMultipleExpiries`. -/
theorem c9_catalog_amended :
    STRATEGY_TEMPLATES.length = 15
    ∧ STRATEGY_TEMPLATES.map Prod.fst =
        ["longCall", "longPut", "coveredCall", "bullCallSpread", "bearPutSpread",
         "bullPutSpread", "bearCallSpread", "straddle", "strangle", "ironCondor",
         "ironButterfly", "callButterfly", "putButterfly", "calendarSpread",
         "diagonalSpread"]
    ∧ (∀ e ∈ STRATEGY_TEMPLATES, e.2.buildLegs.length = e.2.legs
        ∧ ∀ s ∈ e.2.buildLegs, s.strikeOffset.den = 1 ∧ s.strikeOffset.num % 5 = 0)
    ∧ (STRATEGY_TEMPLATES.lookup "callButterfly").map
        (fun t => t.buildLegs.map (fun s => s.qty)) = some [none, some 2, none]
    ∧ (STRATEGY_TEMPLATES.lookup "putButterfly").map
        (fun t => t.buildLegs.map (fun s => s.qty)) = some [none, some 2, none]
    ∧ (STRATEGY_TEMPLATES.filter (fun e => e.2.requiresMultipleExpiries)).map Prod.fst
        = ["calendarSpread", "diagonalSpread"] := by
  refine ⟨by rfl, by rfl, by decide, by decide, by decide, by rfl⟩

/-- For `currentPrice ≥ 4/3` (so that the 25%-down bound stays above the $1
floor), the heatmap price points are exactly the 16 rounded values
`cp * 1.25 - k * cp/30` for `k = 0, ..., 15`. -/
theorem heatPricePoints_of_ge (cp : ℚ) (hcp : 4/3 ≤ cp) :
    heatPricePoints cp
      = (List.range 16).map (fun (k : ℕ) => jsToFixed2 (cp * (5/4) - (k:ℚ) * (cp / 30))) := by
  have hcp0 : (0:ℚ) < cp := by linarith
  have hmin : max 1 (cp * (1 - 1/4)) = cp * (1 - 1/4) := by
    apply max_eq_right
    linarith
  have hle : cp * (1 - 1/4) ≤ cp * (1 + 1/4) := by nlinarith
  have hdiff : cp * (1 + 1/4) - cp * (1 - 1/4) = cp / 2 := by ring
  have hstep : (0:ℚ) < (cp * (1 + 1/4) - cp * (1 - 1/4)) / 15 := by
    rw [hdiff]
    positivity
  have hcount : (cp * (1 + 1/4) - cp * (1 - 1/4))
      / ((cp * (1 + 1/4) - cp * (1 - 1/4)) / 15) = 15 := by
    rw [hdiff]
    field_simp
    ring
  simp only [heatPricePoints, hmin, descGrid, if_pos hle, if_pos hstep, hcount]
  rw [show ((15:ℚ).floor.toNat + 1) = 16 from by with_unfolding_all rfl]
  rw [List.map_map]
  apply List.map_eq_map_iff.mpr
  intro k _
  simp only [Function.comp_apply]
  congr 1
  ring

/-- The heatmap day offsets always contain day 0 and the final day. -/
theorem heatDateIntervals_bounds (days : ℕ) :
    0 ∈ heatDateIntervals days ∧ days ∈ heatDateIntervals days := by
  have h0 : 0 ∈ (List.range (days / max 1 (days / 8) + 1)).map (· * max 1 (days / 8)) :=
    List.mem_map.mpr ⟨0, List.mem_range.mpr (Nat.succ_pos _), by simp⟩
  simp only [heatDateIntervals]
  by_cases h : ((List.range (days / max 1 (days / 8) + 1)).map
      (· * max 1 (days / 8))).getLast? = some days
  · rw [if_pos h]
    refine ⟨h0, ?_⟩
    obtain ⟨hne, heq⟩ := List.mem_getLast?_eq_getLast h
    have hmem := List.getLast_mem hne
    rwa [← heq] at hmem
  · rw [if_neg h]
    exact ⟨List.mem_append_left _ h0,
      List.mem_append_right _ (List.mem_singleton.mpr rfl)⟩

/-- Claim C8 (counterexample): at `currentPrice = 1` the price rows do not
span down to `currentPrice * 0.75`: the source floors the lower bound at $1
(`Math.max(1, ...)`), so the last row is 1, not 0.75. -/
theorem c8_counterexample :
    (generateHeatmapData 1 0 OptionType.call 1 10 1 (1/20)).pricePoints.getLast?
      ≠ some (jsToFixed2 ((1:ℚ) * (3/4))) := by
  have hp : (generateHeatmapData 1 0 OptionType.call 1 10 1 (1/20)).pricePoints
      = heatPricePoints 1 := rfl
  have h1 : (heatPricePoints 1).getLast? = some 1 := by
    with_unfolding_all rfl
  have h2 : jsToFixed2 ((1:ℚ) * (3/4)) = 3/4 := by
    with_unfolding_all rfl
  rw [hp, h1, h2]
  simp only [ne_eq, Option.some.injEq]
  norm_num

/-- Claim C8 (amended): for `currentPrice ≥ 4/3` and integer
`daysToExpiry ≥ 1`, the heatmap has exactly 16 price rows, the rounded
values `cp * 1.25 - k * cp/30` for `k = 0..15` (descending from the rounded
`1.25 * cp` to the rounded `0.75 * cp`); the day offsets are the multiples
of `max(1, ⌊days/8⌋)` with the final day appended when missing, hence they
always contain day 0 and the final day (but may comprise up to 9 steps with
a shorter last step); and each cell is the rounded Black-Scholes value at
`T = (days - day)/365` minus the premium. -/
theorem c8_heatmap_amended (K prem : ℚ) (t : OptionType) (cp : ℚ) (days : ℕ)
    (sigma r : ℚ) (hcp : 4/3 ≤ cp) (hd : 1 ≤ days) :
    (generateHeatmapData K prem t cp days sigma r).pricePoints
      = (List.range 16).map (fun (k : ℕ) => jsToFixed2 (cp * (5/4) - (k:ℚ) * (cp / 30)))
    ∧ (generateHeatmapData K prem t cp days sigma r).pricePoints.length = 16
    ∧ jsToFixed2 (cp * (5/4)) ∈ (generateHeatmapData K prem t cp days sigma r).pricePoints
    ∧ jsToFixed2 (cp * (3/4)) ∈ (generateHeatmapData K prem t cp days sigma r).pricePoints
    ∧ 0 ∈ (generateHeatmapData K prem t cp days sigma r).dateIntervals
    ∧ days ∈ (generateHeatmapData K prem t cp days sigma r).dateIntervals
    ∧ (generateHeatmapData K prem t cp days sigma r).data
      = (generateHeatmapData K prem t cp days sigma r).pricePoints.map (fun (p : ℚ) =>
          (p, (generateHeatmapData K prem t cp days sigma r).dateIntervals.map (fun (day : ℕ) =>
            jsToFixed2R (calculateOptionPrice (p:ℝ) (K:ℝ)
              ((((days:ℚ) - (day:ℚ)) / 365 : ℚ) : ℝ) (r:ℝ) (sigma:ℝ) t - (prem:ℝ))))) := by
  have hpts : (generateHeatmapData K prem t cp days sigma r).pricePoints
      = heatPricePoints cp := rfl
  have hdates : (generateHeatmapData K prem t cp days sigma r).dateIntervals
      = heatDateIntervals days := rfl
  have hlist := heatPricePoints_of_ge cp hcp
  refine ⟨by rw [hpts, hlist], ?_, ?_, ?_, ?_, ?_, ?_⟩
  · rw [hpts, hlist, List.length_map, List.length_range]
  · rw [hpts, hlist]
    refine List.mem_map.mpr ⟨0, by decide, ?_⟩
    congr 1
    push_cast
    ring
  · rw [hpts, hlist]
    refine List.mem_map.mpr ⟨15, by decide, ?_⟩
    congr 1
    push_cast
    ring
  · rw [hdates]
    exact (heatDateIntervals_bounds days).1
  · rw [hdates]
    exact (heatDateIntervals_bounds days).2
  · rfl

/-- Claim C8 (witness): the amended row description at
`currentPrice = 4, daysToExpiry = 10`. -/
theorem c8_witness :
    ((4:ℚ)/3 ≤ 4) ∧ ((1:ℕ) ≤ 10)
    ∧ (generateHeatmapData 1 0 OptionType.call 4 10 1 (1/20)).pricePoints
        = (List.range 16).map (fun (k : ℕ) => jsToFixed2 ((4:ℚ) * (5/4) - (k:ℚ) * (4 / 30))) :=
  ⟨by norm_num, by norm_num,
   (c8_heatmap_amended 1 0 OptionType.call 4 10 1 (1/20) (by norm_num) (by norm_num)).1⟩

/-- Claim C7 (witness): the condor metrics at the concrete premiums
`(1, 2, 2, 1)`, which net to a $2.00 credit. -/
theorem c7_witness :
    (-(1:ℚ) + 2 + 2 - 1 = 2)
    ∧ (calculateStrategyMetrics (condorLegs 1 2 2 1) 100 (1/2)).netPremium = 200
    ∧ (calculateStrategyMetrics (condorLegs 1 2 2 1) 100 (1/2)).isCredit = true
    ∧ (calculateStrategyMetrics (condorLegs 1 2 2 1) 100 (1/2)).maxLoss = .fin (-300) :=
  ⟨by norm_num,
   (c7_condor_metrics 1 2 2 1 (by norm_num)).1,
   (c7_condor_metrics 1 2 2 1 (by norm_num)).2.1,
   (c7_condor_metrics 1 2 2 1 (by norm_num)).2.2.1⟩
